import Mathlib

/-!
Shallow embedding of the fan-control engine of the `tuxedo-rs` `tailord`
daemon (files `src/tailord/src/fancontrol/mod.rs` and
`src/tailord/src/fancontrol/runtime.rs`), together with theorems settling
the specification claims about it.

Conventions of the embedding:
* `u8` values are modelled as `Nat`; saturating operations insert the
  explicit `min 255` / truncated-subtraction behaviour of `u8` where the
  source uses `saturating_add` / `saturating_sub` / `abs_diff`.
* Fallible I/O operations are modelled by passing their outcome into the
  pure step functions: a read is an `Option Nat` (`none` = `Err`), a write
  outcome is a `Bool` (`false` = `Err`).  An `unwrap()` on a failed
  operation (a panic) is modelled by an `Option` result at the level of the
  surrounding function, `none` standing for the panic.
* The `tokio::select!`-driven event loops are modelled as explicit step
  functions over the events an iteration can consume.
-/

/-- Modelled from the spec: the file `buffer.rs` (the `TemperatureBuffer`
ring buffer) is not part of the provided sources.  The spec states a fixed
small capacity `K` (a design parameter), seeding with one initial reading,
eviction of the oldest sample on overflow, `latest()`, a minimum-based
`smoothed()` and a `diff_to_min_in_history` volatility measure.  The
capacity constant below stands for the design parameter `K`. -/
def bufferCapacity : Nat := 4

/-- Modelled from the spec: fixed-capacity ring buffer of recent
temperature samples, insertion order significant, oldest evicted on
overflow.  `runtime.rs` accesses the underlying collection as the field
`temp_history`. -/
structure TemperatureBuffer where
  temp_history : List Nat
  deriving Repr, DecidableEq

namespace TemperatureBuffer

/-- Modelled from the spec: the buffer is created seeded with an initial
reading, so it is never empty after construction. -/
def new (temp : Nat) : TemperatureBuffer := ⟨[temp]⟩

/-- Modelled from the spec: `update(sample)` pushes a new reading, evicting
the oldest if at capacity. -/
def update (b : TemperatureBuffer) (temp : Nat) : TemperatureBuffer :=
  let h := b.temp_history ++ [temp]
  ⟨if bufferCapacity < h.length then h.drop (h.length - bufferCapacity) else h⟩

/-- Modelled from the spec: `latest()` returns the most recent sample.
The source calls this `get_latest` (`mod.rs` line 91). -/
def get_latest (b : TemperatureBuffer) : Nat :=
  b.temp_history.getLast?.getD 0

/-- Minimum of the samples currently held, as computed inline by
`runtime.rs` line 45 (`temp_history.iter().min().unwrap()`); this is the
smoothed temperature of the spec. -/
def min_temp (b : TemperatureBuffer) : Nat :=
  match b.temp_history with
  | [] => 0
  | h :: t => t.foldl Nat.min h

/-- Modelled from the spec: `volatility()` is a bounded measure of how much
the temperature is changing; `runtime.rs` calls it
`diff_to_min_in_history`, the distance of the latest sample from the
minimum in the window. -/
def diff_to_min_in_history (b : TemperatureBuffer) : Nat :=
  b.get_latest - b.min_temp

end TemperatureBuffer

/-- Modelled from the spec: `profile.rs` is not part of the provided
sources and the evaluation rule between breakpoints is explicitly left
open (§4.2/§9), so the profile is embedded abstractly as its two
evaluation functions `calc_target_fan_speed` and `calc_target_power_limit`
(the names used by `runtime.rs` lines 47 and 67). -/
structure FanProfile where
  calc_target_fan_speed : Nat → Nat
  calc_target_power_limit : Nat → Nat

/-- The per-fan controller state from `mod.rs` (struct `FanRuntime` /
`FanRuntimeData`): temperature history, tracked current fan speed
percentage, and the active profile.  The device handle and the suspend
receiver are pure I/O and appear as explicit inputs of the step
functions instead. -/
structure FanRuntimeData where
  temp_history : TemperatureBuffer
  fan_speed : Nat
  profile : FanProfile

namespace FanRuntimeData

/-- Embeds `FanRuntime::update_temp` (`mod.rs` lines 83-94): on a
successful temperature read, push the value into the history and return
it; on a read failure, log and return the buffer's latest value, leaving
the buffer untouched.  Returns the temperature used and the new state. -/
def update_temp (s : FanRuntimeData) (temp_read : Option Nat) :
    Nat × FanRuntimeData :=
  match temp_read with
  | some temp => (temp, { s with temp_history := s.temp_history.update temp })
  | none => (s.temp_history.get_latest, s)

/-- Embeds `FanRuntime::set_speed` (`mod.rs` lines 97-104).  If the new
speed differs from the tracked `fan_speed`, the tracked value is set to the
new speed and the device write is attempted; a write failure is only
logged.  Returns the new state, whether a device write was attempted, and
whether an error was logged (`write_ok = false` on the attempted write). -/
def set_speed (s : FanRuntimeData) (new_speed : Nat) (write_ok : Bool) :
    FanRuntimeData × Bool × Bool :=
  if s.fan_speed ≠ new_speed then
    ({ s with fan_speed := new_speed }, true, !write_ok)
  else
    (s, false, false)

end FanRuntimeData

/-- The `u8::abs_diff` of `runtime.rs` line 48. -/
def fan_diff_of (fan_speed target_fan_speed : Nat) : Nat :=
  max fan_speed target_fan_speed - min fan_speed target_fan_speed

/-- The fan-speed increment of `runtime.rs` lines 54-57:
`fan_diff / 4 + target_fan_speed / 50`, clamped by `.min(3).max(1)` only
when ramping up (`target_fan_speed > fan_speed`). -/
def fan_increment (fan_speed target_fan_speed : Nat) : Nat :=
  if target_fan_speed > fan_speed then
    max (min (fan_diff_of fan_speed target_fan_speed / 4 + target_fan_speed / 50) 3) 1
  else
    fan_diff_of fan_speed target_fan_speed / 4 + target_fan_speed / 50

/-- The new speed passed to `set_speed` by `runtime.rs` lines 60-64:
`fan_speed.saturating_add(fan_increment).min(100)` when ramping up,
`fan_speed.saturating_sub(fan_increment)` otherwise (`u8` saturation made
explicit). -/
def next_fan_speed (fan_speed target_fan_speed : Nat) : Nat :=
  if target_fan_speed > fan_speed then
    min (min (fan_speed + fan_increment fan_speed target_fan_speed) 255) 100
  else
    fan_speed - fan_increment fan_speed target_fan_speed

/-- The debounce condition of `runtime.rs` line 68:
`previous_powerclamp.map_or(true, |prev| prev != target)`. -/
def powerclamp_should_write (previous : Option Nat) (target : Nat) : Bool :=
  match previous with
  | none => true
  | some prev => prev != target

/-- Embeds the power-limit update of `runtime.rs` lines 66-73: when the
target differs from the previously written value (or none was written
yet), attempt the file write — a failure is only logged — and set
`previous_powerclamp` to the target unconditionally.  Returns the new
`previous_powerclamp`, whether a write was attempted, and whether an error
was logged. -/
def powerclamp_step (previous : Option Nat) (target : Nat) (write_ok : Bool) :
    Option Nat × Bool × Bool :=
  if powerclamp_should_write previous target then
    (some target, true, !write_ok)
  else
    (previous, false, false)

/-- Everything one iteration of the inner loop of
`FanRuntimeData::fan_control_loop` (`runtime.rs` lines 42-81) computes,
before the final delay/suspend wait. -/
structure TickResult where
  state : FanRuntimeData
  previous_powerclamp : Option Nat
  act_current_temp : Nat
  current_temp : Nat
  target_fan_speed : Nat
  fan_diff : Nat
  target_power_limit : Nat
  fan_write_attempted : Bool
  powerclamp_write_attempted : Bool

/-- Embeds one iteration of the control loop (`runtime.rs` lines 42-81):
read and record the temperature, smooth it to the window minimum, evaluate
the profile's fan curve at the smoothed value, take a bounded step towards
the target speed, actuate via `set_speed`, evaluate the profile's
power-limit curve at the raw temperature and debounce-write it.  The
outcome of each fallible I/O operation of the tick is an explicit input;
none of them aborts the tick. -/
def control_tick (s : FanRuntimeData) (previous_powerclamp : Option Nat)
    (temp_read : Option Nat) (fan_write_ok powerclamp_write_ok : Bool) :
    TickResult :=
  let r1 := s.update_temp temp_read
  let act_current_temp := r1.1
  let s1 := r1.2
  let current_temp := s1.temp_history.min_temp
  let target_fan_speed := s1.profile.calc_target_fan_speed current_temp
  let fan_diff := fan_diff_of s1.fan_speed target_fan_speed
  let r2 := s1.set_speed (next_fan_speed s1.fan_speed target_fan_speed) fan_write_ok
  let target_power_limit := s1.profile.calc_target_power_limit act_current_temp
  let r3 := powerclamp_step previous_powerclamp target_power_limit powerclamp_write_ok
  { state := r2.1
    previous_powerclamp := r3.1
    act_current_temp := act_current_temp
    current_temp := current_temp
    target_fan_speed := target_fan_speed
    fan_diff := fan_diff
    target_power_limit := target_power_limit
    fan_write_attempted := r2.2.1
    powerclamp_write_attempted := r3.2.1 }

/-- Embeds the start of `FanRuntimeData::fan_control_loop` (`runtime.rs`
lines 39-40): the powerclamp control file is opened with
`rw_file(...).await.unwrap()` — a failed open panics (`none`); on success
the loop starts with `previous_powerclamp = None`. -/
def loop_setup (open_result : Option Unit) : Option (Option Nat) :=
  match open_result with
  | some _ => some none
  | none => none

/-- Embeds the resume branch of the tick's final wait (`runtime.rs` lines
85-87): after a suspend→resume cycle the tracked speed is resynchronised
with `self.io.get_fan_speed_percent(0).unwrap()` — a failed read panics
(`none`). -/
def resume_resync (s : FanRuntimeData) (read_result : Option Nat) :
    Option FanRuntimeData :=
  match read_result with
  | some speed => some { s with fan_speed := speed }
  | none => none

/-- The pressure computation of `suitable_delay` (`runtime.rs` lines
94-104): the temperature-volatility term plus `fan_diff / 2`, the sum
saturating in `u8` and capped at 15. -/
def delay_pressure (temp_buffer : TemperatureBuffer) (fan_diff : Nat) : Nat :=
  min (min (temp_buffer.diff_to_min_in_history + fan_diff / 2) 255) 15

/-- Embeds `suitable_delay` (`runtime.rs` lines 94-114): the delay in
milliseconds is `2000 * exp(pressure * (-1/7))` truncated to an integer
(the `as u64` cast of a positive `f64`).  The source computes with `f64`;
the embedding uses the real exponential, whose value at the relevant
pressures is far enough from every integer boundary that the `f64`
rounding error cannot change the truncation. -/
noncomputable def suitable_delay (temp_buffer : TemperatureBuffer)
    (fan_diff : Nat) : Nat :=
  Nat.floor ((2000 : ℝ) *
    Real.exp ((delay_pressure temp_buffer fan_diff : ℝ) * (-1 / 7)))

/-- Embeds the profile-replacement arm of the outer `tokio::select!` loop
(`mod.rs` lines 52-56): the received profile replaces the `profile` field
of the controller state and nothing else. -/
def handle_new_profile (s : FanRuntimeData) (p : FanProfile) : FanRuntimeData :=
  { s with profile := p }

/-- What the override loop can consume while waiting inside one lease
window: a refresh message with a new speed, or the expiry of the
1-second window. -/
inductive OverrideEvent where
  | refresh (speed : Nat)
  | timeout
  deriving Repr, DecidableEq

/-- How the override loop hands control back to `Normal` profile-driven
operation. -/
inductive OverrideExit where
  | write_failed
  | expired
  deriving Repr, DecidableEq

/-- Embeds the override arm of the outer `tokio::select!` loop (`mod.rs`
lines 58-74).  Each iteration first writes the override speed to the
device; a write failure breaks out immediately (`write_failed`).  It then
waits up to one lease window: a refresh message restarts the loop with the
new speed, the window elapsing breaks out (`expired`).  The embedding runs
the loop over a finite list of wait outcomes; if the list is exhausted the
controller is still overridden, holding the current override speed
(`Sum.inr`). -/
def override_loop (write_ok : Nat → Bool) (speed : Nat)
    (events : List OverrideEvent) : OverrideExit ⊕ Nat :=
  if write_ok speed then
    match events with
    | [] => Sum.inr speed
    | OverrideEvent.refresh new_speed :: rest =>
        override_loop write_ok new_speed rest
    | OverrideEvent.timeout :: _ => Sum.inl OverrideExit.expired
  else
    Sum.inl OverrideExit.write_failed
termination_by events.length

/-- The ramp-down step with a constant `target_speed = 0`: one application
of the speed-update rule of `runtime.rs` lines 54-64. -/
def down_step (fan_speed : Nat) : Nat := next_fan_speed fan_speed 0

/-- The ramp-up step with a constant `target_speed = 100`. -/
def up_step (fan_speed : Nat) : Nat := next_fan_speed fan_speed 100

/-- The reachability property asserted by the spec for the ramp-down
iteration: starting from speed 100 with constant target 0, some number of
ticks reaches speed 0. -/
def ramp_down_reaches_zero : Prop :=
  ∃ n : Nat, down_step^[n] 100 = 0

/-- A concrete profile used to instantiate the theorems on explicit
inputs. -/
def sample_profile : FanProfile :=
  { calc_target_fan_speed := fun t => min t 100
    calc_target_power_limit := fun t => min t 3 }

/-- A concrete controller state used to instantiate the theorems on
explicit inputs: history seeded with 20 °C, tracked speed 10 %. -/
def sample_state : FanRuntimeData :=
  { temp_history := TemperatureBuffer.new 20
    fan_speed := 10
    profile := sample_profile }

/-!  Theorems.  Each claim `Cn` of the specification is settled by the
theorem `cn_...` below; auxiliary lemmas come first.  -/

/-- The actuation step leaves the history and the profile untouched in
both branches of its debounce test. -/
theorem set_speed_frame (s : FanRuntimeData) (v : Nat) (w : Bool) :
    (s.set_speed v w).1.temp_history = s.temp_history ∧
    (s.set_speed v w).1.profile = s.profile := by
  by_cases h : s.fan_speed ≠ v <;> simp [FanRuntimeData.set_speed, h]

/-- The state reached by the actuation step does not depend on whether the
device write succeeded. -/
theorem set_speed_state_ignores_write (s : FanRuntimeData) (v : Nat)
    (w w2 : Bool) : (s.set_speed v w).1 = (s.set_speed v w2).1 := by
  by_cases h : s.fan_speed ≠ v <;> simp [FanRuntimeData.set_speed, h]

/-- The attempted-write flag of the actuation step does not depend on the
write outcome either. -/
theorem set_speed_attempt_ignores_write (s : FanRuntimeData) (v : Nat)
    (w w2 : Bool) : (s.set_speed v w).2.1 = (s.set_speed v w2).2.1 := by
  by_cases h : s.fan_speed ≠ v <;> simp [FanRuntimeData.set_speed, h]

/-- The debounce test of the power-limit write fires exactly when the
target differs from the previously written value. -/
theorem powerclamp_should_write_iff (previous : Option Nat) (target : Nat) :
    powerclamp_should_write previous target = true ↔ previous ≠ some target := by
  cases previous <;> simp [powerclamp_should_write]

/-- The tracked `previous_powerclamp` and attempted-write flag do not
depend on the write outcome. -/
theorem powerclamp_step_ignores_write (previous : Option Nat) (target : Nat)
    (w w2 : Bool) :
    (powerclamp_step previous target w).1 = (powerclamp_step previous target w2).1 ∧
    (powerclamp_step previous target w).2.1 = (powerclamp_step previous target w2).2.1 := by
  by_cases h : powerclamp_should_write previous target <;>
    simp [powerclamp_step, h]

/-- C1 counterexample: the claim says a failed device write does not
change the tracked last-written value.  On the code, `set_speed` updates
the tracked `fan_speed` to the new speed *before* attempting the write and
never reverts it: from the concrete state with tracked speed 10, calling
`set_speed 20` with a failing write leaves the tracked value at 20, not at
the pre-write value 10, and the failure is merely logged. -/
theorem c1_counterexample :
    sample_state.fan_speed = 10 ∧
    (sample_state.set_speed 20 false).1.fan_speed = 20 ∧
    (sample_state.set_speed 20 false).1.fan_speed ≠ sample_state.fan_speed ∧
    (sample_state.set_speed 20 false).2.2 = true := by
  refine ⟨rfl, rfl, ?_, rfl⟩
  show (20 : Nat) ≠ 10
  decide

/-- C1 (amended): whenever the computed new speed differs from the tracked
value, the controller attempts the device write; the tracked value is
updated to the new speed regardless of the write outcome (so it reflects
the last *commanded* value, not the last successfully written one), a
failed write only adds a log entry and produces the same state as a
successful one, and the failed write is not retried on a following tick
whose computed speed is unchanged. -/
theorem c1_amended (s : FanRuntimeData) (new_speed : Nat) (write_ok : Bool)
    (h : s.fan_speed ≠ new_speed) :
    (s.set_speed new_speed write_ok).2.1 = true ∧
    (s.set_speed new_speed write_ok).1.fan_speed = new_speed ∧
    (s.set_speed new_speed false).1 = (s.set_speed new_speed true).1 ∧
    (s.set_speed new_speed false).2.2 = true ∧
    ((s.set_speed new_speed false).1.set_speed new_speed write_ok).2.1 = false := by
  simp [FanRuntimeData.set_speed, h]

/-- C1 witness: the amended statement instantiated at the concrete state
with tracked speed 10 and new speed 20. -/
theorem c1_witness :
    (sample_state.set_speed 20 true).2.1 = true ∧
    (sample_state.set_speed 20 true).1.fan_speed = 20 ∧
    (sample_state.set_speed 20 false).1 = (sample_state.set_speed 20 true).1 ∧
    (sample_state.set_speed 20 false).2.2 = true ∧
    ((sample_state.set_speed 20 false).1.set_speed 20 true).2.1 = false :=
  c1_amended sample_state 20 true (by decide)

/-- C9: when the per-tick temperature read fails, the tick is not aborted:
the temperature used is the buffer's latest stored sample, the buffer is
left unchanged, and the rest of the tick proceeds normally — the fan
target is still evaluated at the window minimum and the power-limit target
at the fallback temperature. -/
theorem c9_temp_read_failure (s : FanRuntimeData) (pc : Option Nat)
    (fw pw : Bool) :
    (s.update_temp none).1 = s.temp_history.get_latest ∧
    (s.update_temp none).2 = s ∧
    (control_tick s pc none fw pw).act_current_temp = s.temp_history.get_latest ∧
    (control_tick s pc none fw pw).state.temp_history = s.temp_history ∧
    (control_tick s pc none fw pw).target_fan_speed
      = s.profile.calc_target_fan_speed s.temp_history.min_temp ∧
    (control_tick s pc none fw pw).target_power_limit
      = s.profile.calc_target_power_limit s.temp_history.get_latest := by
  refine ⟨rfl, rfl, rfl, ?_, rfl, rfl⟩
  exact (set_speed_frame _ _ _).1

/-- C10: after the power-limit write fires (the computed target differs
from the tracked previous value), the tracked value is set to the target
even when the write fails — the failure is only logged — so the failed
write is not retried on subsequent ticks: no further write is attempted
until the computed target changes, at which point a write is attempted
again. -/
theorem c10_powerclamp_no_retry (previous : Option Nat) (target : Nat)
    (h : previous ≠ some target) :
    (powerclamp_step previous target false).1 = some target ∧
    (powerclamp_step previous target false).2.1 = true ∧
    (powerclamp_step previous target false).2.2 = true ∧
    (∀ w : Bool,
      (powerclamp_step (powerclamp_step previous target false).1 target w).2.1
        = false) ∧
    (∀ (t2 : Nat) (w : Bool), t2 ≠ target →
      (powerclamp_step (powerclamp_step previous target false).1 t2 w).2.1
        = true) := by
  have hw : powerclamp_should_write previous target = true :=
    (powerclamp_should_write_iff previous target).mpr h
  refine ⟨by simp [powerclamp_step, hw], by simp [powerclamp_step, hw],
    by simp [powerclamp_step, hw], ?_, ?_⟩
  · intro w
    have hw2 : powerclamp_should_write (some target) target = false := by
      simp [powerclamp_should_write]
    simp [powerclamp_step, hw, hw2]
  · intro t2 w ht2
    have hw2 : powerclamp_should_write (some target) t2 = true :=
      (powerclamp_should_write_iff _ _).mpr
        (fun hc => ht2 (Option.some.inj hc).symm)
    simp [powerclamp_step, hw, hw2]

/-- C10 witness: the theorem instantiated with no previously written value
and target 3, checking both the non-retry after a failed write and the
renewed attempt once the target changes to 4. -/
theorem c10_witness :
    (powerclamp_step none 3 false).1 = some 3 ∧
    (powerclamp_step none 3 false).2.1 = true ∧
    (powerclamp_step none 3 false).2.2 = true ∧
    (powerclamp_step (powerclamp_step none 3 false).1 3 true).2.1 = false ∧
    (powerclamp_step (powerclamp_step none 3 false).1 4 true).2.1 = true :=
  have h := c10_powerclamp_no_retry none 3 (by decide)
  ⟨h.1, h.2.1, h.2.2.1, h.2.2.2.1 true, h.2.2.2.2 4 true (by decide)⟩

/-- The ramp-down step with target 0 subtracts a quarter of the current
speed. -/
theorem down_step_eq (s : Nat) : down_step s = s - s / 4 := by
  simp [down_step, next_fan_speed, fan_increment, fan_diff_of]

/-- Once at 3 % or above, the ramp-down step never goes below 3 %. -/
theorem down_step_ge_three (s : Nat) (h : 3 ≤ s) : 3 ≤ down_step s := by
  rw [down_step_eq]
  omega

/-- All ramp-down iterates from 100 % stay at or above 3 %. -/
theorem down_iter_ge_three (n : Nat) : 3 ≤ down_step^[n] 100 := by
  induction n with
  | zero => simp
  | succ k ih =>
      rw [Function.iterate_succ_apply']
      exact down_step_ge_three _ ih

/-- Speed 3 % is a fixed point of the ramp-down step. -/
theorem down_iter_fixed (k : Nat) : down_step^[k] 3 = 3 := by
  induction k with
  | zero => rfl
  | succ m ih =>
      rw [Function.iterate_succ_apply', ih]
      decide

set_option maxRecDepth 8000 in
/-- Descending from 100 % with constant target 0 reaches the fixed point
3 % after 14 ticks. -/
theorem down_iter_14 : down_step^[14] 100 = 3 := by decide

set_option maxRecDepth 100000 in
/-- Ascending from 0 % with constant target 100 reaches 100 % after 34
ticks. -/
theorem up_iter_34 : up_step^[34] 0 = 100 := by decide

set_option maxRecDepth 100000 in
/-- Before tick 34 the ascent from 0 % is still strictly below 100 %. -/
theorem up_iter_lt_34 : ∀ m : Nat, m < 34 → up_step^[m] 0 < 100 := by decide

/-- C2 counterexample: the ramp-down iteration from 100 % with constant
target 0 never reaches speed 0 — every iterate stays at or above 3 %, so
the reachability property the claim asserts is false. -/
theorem c2_counterexample : ¬ ramp_down_reaches_zero := by
  rintro ⟨n, hn⟩
  have := down_iter_ge_three n
  omega

/-- C2 (amended): the ramp-down iteration from 100 % with constant target
0 converges in 14 ticks to 3 % — a fixed point of the unclamped step, so
speed 0 is never reached — while the clamped ramp-up iteration needs 34
ticks to go from 0 % to 100 %; the descent therefore settles in fewer
ticks (14 < 34) than the symmetric ascent. -/
theorem c2_amended :
    down_step^[14] 100 = 3 ∧
    (∀ n : Nat, 14 ≤ n → down_step^[n] 100 = 3) ∧
    (∀ n : Nat, down_step^[n] 100 ≠ 0) ∧
    up_step^[34] 0 = 100 ∧
    (∀ m : Nat, m < 34 → up_step^[m] 0 < 100) ∧
    14 < 34 := by
  refine ⟨down_iter_14, ?_, ?_, up_iter_34, up_iter_lt_34, by decide⟩
  · intro n hn
    have hsplit : n = (n - 14) + 14 := by omega
    rw [hsplit, Function.iterate_add_apply, down_iter_14, down_iter_fixed]
  · intro n
    have := down_iter_ge_three n
    omega

/-- C2 witness: the amended statement instantiated at tick 20 of the
descent (already settled at the fixed point 3) and at tick 10 of the
ascent (still strictly below 100). -/
theorem c2_witness : down_step^[20] 100 = 3 ∧ up_step^[10] 0 < 100 :=
  ⟨c2_amended.2.1 20 (by decide), c2_amended.2.2.2.2.1 10 (by decide)⟩

/-- C3 counterexample: the claim says no I/O failure inside a tick
terminates the control loop.  On the code, the powerclamp control file is
opened with `unwrap()` at the start of `fan_control_loop` and the
post-resume fan-speed read is also `unwrap()`ed, so either failure panics
(modelled by `none`) instead of being caught and logged. -/
theorem c3_counterexample :
    loop_setup none = none ∧ resume_resync sample_state none = none :=
  ⟨rfl, rfl⟩

/-- C3 (amended): failures of the fallible operations inside the tick body
— the temperature read, the fan-speed device write and the power-limit
file write — are caught locally and only logged: the tick always completes
and evolves the state exactly as in the failure-free tick.  However, a
failure to open the power-limit control file at loop start, or to re-read
the fan speed after a suspend→resume cycle, is `unwrap()`ed and panics,
terminating the process; on success those operations proceed normally. -/
theorem c3_amended (s : FanRuntimeData) (pc : Option Nat)
    (temp_read : Option Nat) (fw pw : Bool) :
    (control_tick s pc temp_read fw pw).state
      = (control_tick s pc temp_read true true).state ∧
    (control_tick s pc temp_read fw pw).previous_powerclamp
      = (control_tick s pc temp_read true true).previous_powerclamp ∧
    loop_setup none = none ∧
    (∀ s2 : FanRuntimeData, resume_resync s2 none = none) ∧
    loop_setup (some ()) = some none ∧
    (∀ (s2 : FanRuntimeData) (v : Nat),
      resume_resync s2 (some v) = some { s2 with fan_speed := v }) := by
  refine ⟨?_, ?_, rfl, fun _ => rfl, rfl, fun _ _ => rfl⟩
  · exact set_speed_state_ignores_write _ _ _ _
  · exact (powerclamp_step_ignores_write _ _ _ _).1

/-- C4: for every pair with `target_speed > current_speed`, both within
0–100, one ramp-up tick increases the speed by at least 1 and at most 3
percentage points and the result never exceeds 100. -/
theorem c4_ramp_up_bounds (c t : Nat) (h1 : c < t) (h2 : t ≤ 100) :
    c < next_fan_speed c t ∧
    1 ≤ next_fan_speed c t - c ∧
    next_fan_speed c t - c ≤ 3 ∧
    next_fan_speed c t ≤ 100 := by
  simp only [next_fan_speed, fan_increment, fan_diff_of, if_pos h1]
  omega

/-- C4 witness: the ramp-up bounds instantiated at current speed 10 and
target 50. -/
theorem c4_witness :
    10 < next_fan_speed 10 50 ∧
    1 ≤ next_fan_speed 10 50 - 10 ∧
    next_fan_speed 10 50 - 10 ≤ 3 ∧
    next_fan_speed 10 50 ≤ 100 :=
  c4_ramp_up_bounds 10 50 (by decide) (by decide)

/-- C6: an override lease refreshed before its 1-second window elapses
never lets the controller leave the override loop (the result is still an
override speed, never an exit to `Normal`); with no refresh the loop exits
to `Normal` as `expired` at the first window expiry, regardless of what
would come later; and a device-write failure exits to `Normal` immediately
as `write_failed`, whatever events are pending. -/
theorem c6_override_lease :
    (∀ (s : Nat) (l : List Nat),
      (override_loop (fun _ => true) s (l.map OverrideEvent.refresh)).isRight
        = true) ∧
    (∀ (s : Nat) (evs : List OverrideEvent),
      override_loop (fun _ => true) s (OverrideEvent.timeout :: evs)
        = Sum.inl OverrideExit.expired) ∧
    (∀ (s : Nat) (evs : List OverrideEvent),
      override_loop (fun _ => false) s evs
        = Sum.inl OverrideExit.write_failed) := by
  refine ⟨?_, ?_, ?_⟩
  · intro s l
    induction l generalizing s with
    | nil => simp [override_loop]
    | cons a rest ih =>
        simp only [List.map_cons]
        rw [override_loop.eq_def]
        simpa using ih a
  · intro s evs
    rw [override_loop.eq_def]
    simp
  · intro s evs
    rw [override_loop.eq_def]
    simp

/-- C7: in every tick the target fan speed is the profile's fan curve
evaluated at the smoothed temperature — the minimum of the samples held in
the (just updated) history buffer — while the target power limit is the
profile's power curve evaluated at the raw temperature read that same
tick. -/
theorem c7_smoothed_vs_raw (s : FanRuntimeData) (pc : Option Nat) (t : Nat)
    (fw pw : Bool) :
    (control_tick s pc (some t) fw pw).state.temp_history
      = s.temp_history.update t ∧
    (control_tick s pc (some t) fw pw).current_temp
      = (s.temp_history.update t).min_temp ∧
    (control_tick s pc (some t) fw pw).target_fan_speed
      = s.profile.calc_target_fan_speed ((s.temp_history.update t).min_temp) ∧
    (control_tick s pc (some t) fw pw).act_current_temp = t ∧
    (control_tick s pc (some t) fw pw).target_power_limit
      = s.profile.calc_target_power_limit t := by
  refine ⟨?_, rfl, rfl, rfl, rfl⟩
  exact (set_speed_frame _ _ _).1

/-- C8: receiving a profile-replacement message swaps only the `profile`
field of the controller state — the tracked fan speed and the temperature
history are untouched — and the tick that follows the swap evaluates both
curves of the new profile, while any tick computed before the swap used
the old one. -/
theorem c8_profile_swap (s : FanRuntimeData) (p : FanProfile)
    (pc : Option Nat) (tr : Option Nat) (fw pw : Bool) :
    (handle_new_profile s p).fan_speed = s.fan_speed ∧
    (handle_new_profile s p).temp_history = s.temp_history ∧
    (handle_new_profile s p).profile = p ∧
    (control_tick (handle_new_profile s p) pc tr fw pw).target_fan_speed
      = p.calc_target_fan_speed
          ((control_tick (handle_new_profile s p) pc tr fw pw).current_temp) ∧
    (control_tick (handle_new_profile s p) pc tr fw pw).target_power_limit
      = p.calc_target_power_limit
          ((control_tick (handle_new_profile s p) pc tr fw pw).act_current_temp) ∧
    (control_tick s pc tr fw pw).target_fan_speed
      = s.profile.calc_target_fan_speed
          ((control_tick s pc tr fw pw).current_temp) := by
  refine ⟨rfl, rfl, rfl, ?_, ?_, ?_⟩ <;> cases tr <;> rfl

/-- Seventh power of `exp (1/7)` collapses to `exp 1`. -/
theorem exp_seventh_pow : Real.exp (1 / 7) ^ 7 = Real.exp 1 := by
  rw [← Real.exp_nat_mul]
  norm_num

/-- Rational lower bound on `exp (1/7)`, tight enough for the 1733 ms and
234 ms truncations. -/
theorem exp_seventh_gt : (115341 / 100000 : ℝ) < Real.exp (1 / 7) := by
  refine lt_of_pow_lt_pow_left₀ 7 (Real.exp_nonneg _) ?_
  rw [exp_seventh_pow]
  calc ((115341 : ℝ) / 100000) ^ 7 < 2.7182818283 := by norm_num
    _ < Real.exp 1 := Real.exp_one_gt_d9

/-- Rational upper bound on `exp (1/7)`. -/
theorem exp_seventh_lt : Real.exp (1 / 7) < 115406 / 100000 := by
  refine lt_of_pow_lt_pow_left₀ 7 (by norm_num) ?_
  rw [exp_seventh_pow]
  calc Real.exp 1 < 2.7182818286 := Real.exp_one_lt_d9
    _ < ((115406 : ℝ) / 100000) ^ 7 := by norm_num

/-- At pressure 0 the delay formula yields exactly 2000 ms. -/
theorem delay_ms_at_zero :
    Nat.floor ((2000 : ℝ) * Real.exp ((0 : ℝ) * (-1 / 7))) = 2000 := by
  norm_num [Real.exp_zero]

/-- At pressure 1 the delay formula truncates to 1733 ms. -/
theorem delay_ms_at_one :
    Nat.floor ((2000 : ℝ) * Real.exp ((1 : ℝ) * (-1 / 7))) = 1733 := by
  have hgt := exp_seventh_gt
  have hlt := exp_seventh_lt
  have hpos : (0 : ℝ) < Real.exp (1 / 7) := Real.exp_pos _
  have hx : Real.exp ((1 : ℝ) * (-1 / 7)) = (Real.exp (1 / 7))⁻¹ := by
    rw [← Real.exp_neg]
    congr 1
    norm_num
  rw [hx, Nat.floor_eq_iff (by positivity), ← div_eq_mul_inv]
  constructor
  · rw [le_div_iff₀ hpos]
    push_cast
    linarith
  · rw [div_lt_iff₀ hpos]
    push_cast
    linarith

/-- At the pressure cap 15 the delay formula truncates to 234 ms. -/
theorem delay_ms_at_fifteen :
    Nat.floor ((2000 : ℝ) * Real.exp ((15 : ℝ) * (-1 / 7))) = 234 := by
  have hgt := exp_seventh_gt
  have hlt := exp_seventh_lt
  have hpos : (0 : ℝ) < Real.exp (1 / 7) := Real.exp_pos _
  have hepos : (0 : ℝ) < Real.exp 1 := Real.exp_pos _
  have he_gt := Real.exp_one_gt_d9
  have he_lt := Real.exp_one_lt_d9
  have hx : Real.exp ((15 : ℝ) * (-1 / 7))
      = (Real.exp (1 / 7) * (Real.exp 1 * Real.exp 1))⁻¹ := by
    rw [← Real.exp_add, ← Real.exp_add, ← Real.exp_neg]
    congr 1
    norm_num
  have hprod_pos : (0 : ℝ) < Real.exp (1 / 7) * (Real.exp 1 * Real.exp 1) := by
    positivity
  have hsq_lt : Real.exp 1 * Real.exp 1
      < (2.7182818286 : ℝ) * 2.7182818286 := by nlinarith
  have hsq_gt : (2.7182818283 : ℝ) * 2.7182818283
      < Real.exp 1 * Real.exp 1 := by nlinarith
  have hub : Real.exp (1 / 7) * (Real.exp 1 * Real.exp 1)
      < (115406 / 100000 : ℝ) * (2.7182818286 * 2.7182818286) := by nlinarith
  have hlb : (115341 / 100000 : ℝ) * (2.7182818283 * 2.7182818283)
      < Real.exp (1 / 7) * (Real.exp 1 * Real.exp 1) := by nlinarith
  rw [hx, Nat.floor_eq_iff (by positivity), ← div_eq_mul_inv]
  constructor
  · rw [le_div_iff₀ hprod_pos]
    push_cast
    nlinarith
  · rw [div_lt_iff₀ hprod_pos]
    push_cast
    nlinarith

/-- C5: the adaptive cadence returns exactly 2000 ms for a settled buffer
(volatility term 0) with `fan_diff = 0`; 234 ms at saturating pressure
(`fan_diff = 255`); 1733 ms for a settled buffer with `fan_diff = 2`
(pressure 1); a buffer whose volatility term alone is 1 (history 20 then
21) with `fan_diff = 0` reproduces the same 1733 ms; and the pressure is
the volatility term plus `fan_diff / 2`, capped at 15. -/
theorem c5_cadence_policy :
    suitable_delay (TemperatureBuffer.new 20) 0 = 2000 ∧
    suitable_delay (TemperatureBuffer.new 20) 255 = 234 ∧
    suitable_delay (TemperatureBuffer.new 20) 2 = 1733 ∧
    suitable_delay ((TemperatureBuffer.new 20).update 21) 0 = 1733 ∧
    (∀ (b : TemperatureBuffer) (fd : Nat),
      delay_pressure b fd = min (b.diff_to_min_in_history + fd / 2) 15) := by
  refine ⟨?_, ?_, ?_, ?_, ?_⟩
  · unfold suitable_delay
    rw [show delay_pressure (TemperatureBuffer.new 20) 0 = 0 from rfl]
    push_cast
    exact delay_ms_at_zero
  · unfold suitable_delay
    rw [show delay_pressure (TemperatureBuffer.new 20) 255 = 15 from rfl]
    push_cast
    exact delay_ms_at_fifteen
  · unfold suitable_delay
    rw [show delay_pressure (TemperatureBuffer.new 20) 2 = 1 from rfl]
    push_cast
    exact delay_ms_at_one
  · unfold suitable_delay
    rw [show delay_pressure ((TemperatureBuffer.new 20).update 21) 0 = 1 from rfl]
    push_cast
    exact delay_ms_at_one
  · intro b fd
    unfold delay_pressure
    omega
